import Mathlib

/- Verification of the drop4crop-api chunked-upload core.

   The definitions below are a shallow embedding of the resumable upload
   pipeline of the repository, translated from:
   - app/layers/uploads/views.py  (upload_file, upload_chunk, check_uploaded_chunks)
   - tools/uploader.py            (filter_existing_files, the vocabularies,
                                   and the client-side upload_file call)

   Modelling conventions, stated once here:
   - Byte strings are lists of naturals, strings are lists of characters.
   - Database layer ids (UUIDs in the source) are naturals; the query-string
     quote stripping of the id is elided.
   - Timestamps (last_part_received_utc, uploaded_at) and the opaque S3
     upload id and ETag tokens are elided: no modelled behaviour reads them.
   - A Python exception that escapes the handler, and the generic
     try-except wrapper that returns HTTP 500, are both modelled as the
     error value serverError (status 500).
   - The S3 multipart service itself (app/s3/services.py is not among the
     sources; the service is external to the process) is modelled from the
     spec, see assembleObject and putPart below. -/

set_option linter.unusedVariables false

namespace Drop4Crop

/-- Byte strings, as lists of byte values. -/
abbrev Bytes := List Nat

/-- Character strings, as lists of characters, so that every string
operation of the model is structurally recursive. -/
abbrev Str := List Char

/-- One entry of the JSON list stored in the parts column of a layer row:
the dictionary appended by upload_chunk with keys PartNumber, Offset and
Length (the ETag and the redundant Size key are elided). -/
structure PartRec where
  partNumber : Nat
  offset : Nat
  length : Nat
  deriving Repr, DecidableEq

/-- The fields of a Layer row (app/layers/models.py together with the
upload-session columns referenced by app/layers/uploads/views.py) that the
upload pipeline reads or writes. -/
structure LayerRec where
  id : Nat
  uploadLength : Nat
  parts : List PartRec
  allPartsReceived : Bool
  crop : Option Str
  waterModel : Option Str
  climateModel : Option Str
  scen : Option Str
  varName : Option Str
  year : Option Int
  filename : Option Str
  minValue : Option Int
  maxValue : Option Int
  processedOk : Bool
  deriving Repr, DecidableEq

/-- The state touched by the upload handlers: the layers table, and the S3
side of the multipart protocol for bucket keys derived from layer ids —
the uploaded parts keyed by (layer id, part number), newest first, and the
objects produced by completed multipart uploads, keyed by layer id. -/
structure ChunkState where
  layers : List LayerRec
  s3parts : List (Nat × Nat × Bytes)
  s3objects : List (Nat × Bytes)
  deriving Repr, DecidableEq

/-- The error outcomes of the chunk handlers of
app/layers/uploads/views.py. -/
inductive UploadError where
  | notFound
  | invalidFilename
  | duplicate
  | serverError
  deriving Repr, DecidableEq

/-- The HTTP status attached to each error by the handlers: 404 for a
missing layer row, 400 for a filename that does not destructure, 409 for
an already fully-received duplicate layer, and 500 for every escaping
exception. -/
def statusCode : UploadError → Nat
  | .notFound => 404
  | .invalidFilename => 400
  | .duplicate => 409
  | .serverError => 500

/-- Split a character list on a separator, Python str.split: the result
always has one more element than the number of separators, and an empty
input yields one empty token. -/
def splitOnChar (sep : Char) : List Char → List (List Char)
  | [] => [[]]
  | c :: rest =>
    match splitOnChar sep rest with
    | [] => [[]]
    | cur :: rs => if c = sep then [] :: cur :: rs else (c :: cur) :: rs

/-- The token list of a filename as computed at views.py:117-122:
lower-case the whole name, keep what precedes the first dot, and split
that stem on underscores. -/
def stemTokens (uploadName : Str) : List Str :=
  splitOnChar '_' ((splitOnChar '.' (uploadName.map Char.toLower)).headD [])

/-- The destructuring assignment of views.py:117-122: it succeeds exactly
when the stem has six underscore-separated tokens, and performs no
vocabulary membership test; any other arity raises and is answered with
status 400. -/
def parseFilename (uploadName : Str) :
    Option (Str × Str × Str × Str × Str × Str) :=
  match stemTokens uploadName with
  | [c, w, cl, s, v, y] => some (c, w, cl, s, v, y)
  | _ => none

/-- Decimal digits to a natural number; none when the token is empty or
has a non-digit. -/
def parseNat? (s : Str) : Option Nat :=
  if s ≠ [] ∧ s.all Char.isDigit then
    some (s.foldl (fun a c => a * 10 + (c.toNat - 48)) 0)
  else none

/-- The int conversion applied to the year token at views.py:143: an
optional leading minus sign followed by decimal digits (the further laxity
of Python int — surrounding whitespace, a plus sign, digit-group
underscores — is not exercised by any input considered here). A failing
conversion raises ValueError outside the try-except and is answered with
status 500. -/
def parseInt? (s : Str) : Option Int :=
  match s with
  | '-' :: rest => (parseNat? rest).map (fun n => -(n : Int))
  | _ => (parseNat? s).map (fun n => (n : Int))

/-- Modelled from the spec: the upload side of the Multipart Storage
Coordinator (section 4.2); the S3 service is external and
app/s3/services.py is not among the sources. Re-uploading a part number
replaces the prior bytes, last write wins; lookup is newest-first so a
plain cons realises the replacement. -/
def putPart (ps : List (Nat × Nat × Bytes)) (lid pn : Nat) (body : Bytes) :
    List (Nat × Nat × Bytes) :=
  (lid, pn, body) :: ps

/-- The bytes currently stored for a part of an upload: the newest entry
for this (layer id, part number) key, empty when none exists. -/
def getPart (ps : List (Nat × Nat × Bytes)) (lid pn : Nat) : Bytes :=
  match ps.find? (fun t => t.1 == lid && t.2.1 == pn) with
  | some t => t.2.2
  | none => []

/-- Modelled from the spec: the completion side of the Multipart Storage
Coordinator (section 4.2 and the glossary entry for multipart upload);
the S3 service is external and app/s3/services.py is not among the
sources. Completion assembles the object as the concatenation, in
ascending part-number order, of the stored bytes of the distinct part
numbers referenced by the completion call. -/
def assembleObject (ps : List (Nat × Nat × Bytes)) (lid : Nat)
    (nums : List Nat) : Bytes :=
  ((nums.dedup.insertionSort (· ≤ ·)).map (fun pn => getPart ps lid pn)).flatten

/-- Write back the mutated layer row, matched by id, session.add plus
commit of views.py. -/
def storeLayer (layers : List LayerRec) (patch : Nat) (l' : LayerRec) :
    List LayerRec :=
  layers.map (fun l => if l.id == patch then l' else l)

/-- The duplicate-layer query of views.py:137-148: a row whose six
metadata fields equal the values parsed from the current filename and
whose all_parts_received flag is set. -/
def findDuplicate (layers : List LayerRec)
    (crop waterModel climateModel scen varName : Str) (yr : Int) :
    Option LayerRec :=
  layers.find? (fun l =>
    l.crop == some crop && l.waterModel == some waterModel &&
    l.climateModel == some climateModel && l.scen == some scen &&
    l.varName == some varName && l.year == some yr && l.allPartsReceived)

/-- The state produced by an accepted non-final chunk (step 7 of
uploadChunk below): the part body is stored, a part record is appended
unconditionally, and the filename is recorded. -/
def recordPartOnly (st : ChunkState) (patch : Nat) (layer : LayerRec)
    (pn off len : Nat) (name : Str) (body : Bytes) : ChunkState :=
  { layers := storeLayer st.layers patch
      { layer with
        parts := layer.parts ++ [⟨pn, off, len⟩],
        filename := some name },
    s3parts := putPart st.s3parts patch pn body,
    s3objects := st.s3objects }

/-- The state produced by an accepted final chunk (steps 7 and 8 of
uploadChunk below): additionally the multipart upload is completed over
the part numbers of every recorded part entry and the metadata fields and
completion flags are written. -/
def recordPartAndComplete (st : ChunkState) (patch : Nat) (layer : LayerRec)
    (pn off len : Nat) (name : Str) (body : Bytes)
    (crop waterModel climateModel scen varName : Str) (yr : Int) : ChunkState :=
  let parts' := layer.parts ++ [⟨pn, off, len⟩]
  let s3parts' := putPart st.s3parts patch pn body
  { layers := storeLayer st.layers patch
      { layer with
        parts := parts', filename := some name,
        allPartsReceived := true, processedOk := true,
        crop := some crop, waterModel := some waterModel,
        climateModel := some climateModel, scen := some scen,
        varName := some varName, year := some yr },
    s3parts := s3parts',
    s3objects :=
      (patch, assembleObject s3parts' patch
        (parts'.map (fun p => p.partNumber))) :: st.s3objects }

/-- The PATCH handler upload_chunk of app/layers/uploads/views.py,
step for step:
1. look up the layer row by the patch query parameter, 404 when absent
   (views.py:104-112; no state condition is part of the lookup);
2. destructure the filename into six tokens, 400 when that fails
   (views.py:114-134);
3. convert the year token, an escaping ValueError when it is not an
   integer literal (views.py:143);
4. run the duplicate query, 409 when a fully-received layer with the same
   six metadata values exists (views.py:136-156);
5. classify the chunk as final exactly when offset plus content length
   equals the Upload-Length header (views.py:160);
6. for a final chunk take the last element of the parts list — an
   escaping IndexError/TypeError when no part was recorded yet
   (views.py:163) — and use its part number plus one; otherwise divide
   offset by content length — an escaping ZeroDivisionError when the
   content length is zero (views.py:170) — and add one;
7. upload the part body under that part number and append a new part
   record, unconditionally, to the parts list, recording the filename
   (views.py:184-207);
8. for a final chunk, complete the multipart upload over the part numbers
   of all recorded part entries, then set the metadata fields and the
   all_parts_received and processing flags (views.py:209-242). -/
def uploadChunk (st : ChunkState) (patch uploadOffset uploadLength : Nat)
    (uploadName : Str) (contentLength : Nat) (body : Bytes) :
    Except UploadError ChunkState :=
  match st.layers.find? (fun l => l.id == patch) with
  | none => .error .notFound
  | some layer =>
    match parseFilename uploadName with
    | none => .error .invalidFilename
    | some (crop, waterModel, climateModel, scen, varName, yearTok) =>
      match parseInt? yearTok with
      | none => .error .serverError
      | some yr =>
        match findDuplicate st.layers crop waterModel climateModel scen varName yr with
        | some _ => .error .duplicate
        | none =>
          if uploadOffset + contentLength = uploadLength then
            match layer.parts.getLast? with
            | none => .error .serverError
            | some lastPart =>
              .ok (recordPartAndComplete st patch layer
                (lastPart.partNumber + 1) uploadOffset contentLength
                uploadName body crop waterModel climateModel scen varName yr)
          else
            if contentLength = 0 then .error .serverError
            else
              .ok (recordPartOnly st patch layer
                (uploadOffset / contentLength + 1) uploadOffset contentLength
                uploadName body)

/-- The next expected offset computed by the HEAD handler: the last
recorded part's offset plus length, zero when the parts list is empty or
null (views.py:276-280). -/
def nextExpectedOffset (l : LayerRec) : Nat :=
  match l.parts.getLast? with
  | none => 0
  | some lastPart => lastPart.offset + lastPart.length

/-- The HEAD handler check_uploaded_chunks of app/layers/uploads/views.py:
look up the layer row, 404 when absent, and answer with the next expected
offset. -/
def checkUploadedChunks (st : ChunkState) (patch : Nat) :
    Except UploadError Nat :=
  match st.layers.find? (fun l => l.id == patch) with
  | none => .error .notFound
  | some l => .ok (nextExpectedOffset l)

/-- Run a sequence of chunk requests for one session, all sharing the
Upload-Length header and the filename, stopping at the first error; this
is the client delivery loop the testable properties quantify over. -/
def runChunks (st : ChunkState) (patch uploadLength : Nat) (uploadName : Str) :
    List (Nat × Nat × Bytes) → Except UploadError ChunkState
  | [] => .ok st
  | (off, len, body) :: rest =>
    match uploadChunk st patch off uploadLength uploadName len body with
    | .error e => .error e
    | .ok st' => runChunks st' patch uploadLength uploadName rest

/-- The PATCH request as issued by the client tool: tools/uploader.py
sends an overwrite_duplicates query parameter (upload_file,
tools/uploader.py:342-353), but no server handler of
app/layers/uploads/views.py declares such a parameter, so the server
discards it and the request is handled exactly as uploadChunk. -/
def uploadChunkWithOverwrite (overwriteDuplicates : Bool) (st : ChunkState)
    (patch uploadOffset uploadLength : Nat) (uploadName : Str)
    (contentLength : Nat) (body : Bytes) : Except UploadError ChunkState :=
  uploadChunk st patch uploadOffset uploadLength uploadName contentLength body

/-- The client-side filter of tools/uploader.py:112-129: with overwrite
enabled every file is kept; otherwise files whose filename is already on
the server are dropped. -/
def filterExistingFiles (filesToUpload : List (Str × Str))
    (existingFiles : List Str) (overwrite : Bool) : List (Str × Str) :=
  if overwrite then filesToUpload
  else filesToUpload.filter (fun fp => !(existingFiles.contains fp.2))

/-- How many recorded parts cover byte b. -/
def countCovering (parts : List PartRec) (b : Nat) : Nat :=
  (parts.filter (fun p => p.offset ≤ b && b < p.offset + p.length)).length

/-- The part list covers every byte of the interval from 0 to total
exactly once: no gap and no overlap. -/
def CoversExactly (parts : List PartRec) (total : Nat) : Prop :=
  ∀ b, b < total → countCovering parts b = 1

/-- How many chunks of a delivery list cover byte b, used to state that a
delivery covers the declared length exactly once per byte. -/
def countChunkCovering (chunks : List (Nat × Nat × Bytes)) (b : Nat) : Nat :=
  (chunks.filter (fun c => c.1 ≤ b && b < c.1 + c.2.1)).length

/-- The filename of the scenario in section 8 of the spec. -/
def exName : Str := "wheat_pcrglobwb_hadgem2es_rcp26_wf_2050.tif".toList

/-- A six-token filename with tokens outside every vocabulary of
tools/uploader.py, used by the counterexamples. -/
def cName : Str := "a_b_c_d_e_1.tif".toList

/-- A seven-token filename. -/
def cName7 : Str := "a_b_c_d_e_f_1.tif".toList

/-- A two-token, category-only filename as produced by the client tool's
crop-specific handling. -/
def cName2 : Str := "wheat_yield.tif".toList

/-- A layer row as created by the POST handler upload_file: upload length
declared, no parts, nothing received, no metadata. -/
def freshLayer (lid total : Nat) : LayerRec :=
  { id := lid, uploadLength := total, parts := [], allPartsReceived := false,
    crop := none, waterModel := none, climateModel := none, scen := none,
    varName := none, year := none, filename := none,
    minValue := none, maxValue := none, processedOk := false }

/-- The state right after session creation for a single upload of the
declared total length: one fresh layer row with id 7 and no storage
state. -/
def initState (total : Nat) : ChunkState :=
  { layers := [freshLayer 7 total], s3parts := [], s3objects := [] }

/-- The in-order delivery of k uniform chunks of size L: chunk i carries
the byte range from i*L of length L. -/
def uniformChunks (L : Nat) (payload : Nat → Bytes) (k : Nat) :
    List (Nat × Nat × Bytes) :=
  (List.range k).map (fun i => (i * L, L, payload i))

/-- The in-order delivery of n uniform chunks of size L followed by one
final shorter chunk of size r at offset n*L. -/
def inOrderChunks (n L r : Nat) (payload : Nat → Bytes) (lastBody : Bytes) :
    List (Nat × Nat × Bytes) :=
  uniformChunks L payload n ++ [(n * L, r, lastBody)]

/-- The part records after k accepted in-order uniform chunks of size L:
part i+1 covers the range from i*L of length L. -/
def partsUpTo (L k : Nat) : List PartRec :=
  (List.range k).map (fun i => ⟨i + 1, i * L, L⟩)

/-- The S3 part store after k accepted in-order uniform chunks, newest
first. -/
def s3Up (payload : Nat → Bytes) (k : Nat) : List (Nat × Nat × Bytes) :=
  ((List.range k).map (fun i => (7, i + 1, payload i))).reverse

/-- The layer row after k accepted in-order uniform chunks of the scenario
upload. -/
def stageLayer (total L k : Nat) : LayerRec :=
  { freshLayer 7 total with
    parts := partsUpTo L k,
    filename := if k = 0 then none else some exName }

/-- The whole state after k accepted in-order uniform chunks of the
scenario upload. -/
def stage (total L : Nat) (payload : Nat → Bytes) (k : Nat) : ChunkState :=
  { layers := [stageLayer total L k], s3parts := s3Up payload k,
    s3objects := [] }

/-- The layer row after the final chunk of the in-order scenario upload:
n uniform parts, one final part numbered n+1, metadata recorded,
min_value and max_value untouched. -/
def finalLayer (n L r total : Nat) : LayerRec :=
  { freshLayer 7 total with
    parts := partsUpTo L n ++ [⟨n + 1, n * L, r⟩],
    filename := some exName,
    allPartsReceived := true, processedOk := true,
    crop := some "wheat".toList, waterModel := some "pcrglobwb".toList,
    climateModel := some "hadgem2es".toList, scen := some "rcp26".toList,
    varName := some "wf".toList, year := some 2050 }

/-- The whole state after the in-order scenario upload finalizes: the
completed object is the concatenation of the chunk bodies in offset
order. -/
def finalStage (n L r : Nat) (payload : Nat → Bytes) (lastBody : Bytes) :
    ChunkState :=
  { layers := [finalLayer n L r (n * L + r)],
    s3parts := (7, n + 1, lastBody) :: s3Up payload n,
    s3objects := [(7, ((List.range n).map payload).flatten ++ lastBody)] }

/-- The crop vocabulary of tools/uploader.py. -/
def CROP_ITEMS : List Str :=
  ["barley".toList, "maize".toList, "potato".toList, "rice".toList,
   "sorghum".toList, "soy".toList, "sugarcane".toList, "wheat".toList]

/-- The water-model vocabulary of tools/uploader.py. -/
def GLOBAL_WATER_MODELS : List Str :=
  ["cwatm".toList, "h08".toList, "lpjml".toList, "matsiro".toList,
   "pcr-globwb".toList, "watergap2".toList]

/-- The climate-model vocabulary of tools/uploader.py. -/
def CLIMATE_MODELS : List Str :=
  ["gfdl-esm2m".toList, "hadgem2-es".toList, "ipsl-cm5a-lr".toList,
   "miroc5".toList]

/-- The scenario vocabulary of tools/uploader.py. -/
def SCENARIOS : List Str :=
  ["rcp26".toList, "rcp60".toList, "rcp85".toList]

/-- The variable vocabulary of tools/uploader.py. -/
def VARIABLES : List Str :=
  ["vwc".toList, "vwcb".toList, "vwcg".toList, "vwcg_perc".toList,
   "vwcb_perc".toList, "wf".toList, "wfb".toList, "wfg".toList,
   "etb".toList, "etg".toList, "rb".toList, "rg".toList,
   "wdb".toList, "wdg".toList]

/-- A fully received layer row whose metadata equals what cName parses to,
the pre-existing duplicate of the counterexamples. -/
def dupLayer : LayerRec :=
  { id := 7, uploadLength := 3,
    parts := [⟨1, 0, 3⟩], allPartsReceived := true,
    crop := some "a".toList, waterModel := some "b".toList,
    climateModel := some "c".toList, scen := some "d".toList,
    varName := some "e".toList, year := some 1,
    filename := some cName, minValue := none, maxValue := none,
    processedOk := true }

/-- A state whose only layer row is the finalized dupLayer. -/
def dupState : ChunkState :=
  { layers := [dupLayer], s3parts := [], s3objects := [] }

/-- The session state after the two in-order chunks (0,1) and (1,1) of a
3-byte upload named cName were accepted. -/
def resubState : ChunkState :=
  { layers := [{ freshLayer 7 3 with
                 parts := [⟨1, 0, 1⟩, ⟨2, 1, 1⟩]
                 filename := some cName }],
    s3parts := [(7, 2, [11]), (7, 1, [10])], s3objects := [] }

/-- The arrival order second chunk, first chunk, final chunk for a 3-byte
upload cut into three 1-byte chunks: a permutation of an exact cover of
the interval from 0 to 3. -/
def c1Chunks : List (Nat × Nat × Bytes) :=
  [(1, 1, [11]), (0, 1, [10]), (2, 1, [12])]

/-- The state the out-of-order delivery c1Chunks ends in: the arrival-order
part numbering gave both the second and the final chunk part number 2, so
the completed object holds only bytes 10 and 12. -/
def c1Final : ChunkState :=
  { layers := [{ id := 7, uploadLength := 3,
                 parts := [⟨2, 1, 1⟩, ⟨1, 0, 1⟩, ⟨2, 2, 1⟩],
                 allPartsReceived := true,
                 crop := some "a".toList, waterModel := some "b".toList,
                 climateModel := some "c".toList, scen := some "d".toList,
                 varName := some "e".toList, year := some 1,
                 filename := some cName, minValue := none, maxValue := none,
                 processedOk := true }],
    s3parts := [(7, 2, [12]), (7, 1, [10]), (7, 2, [11])],
    s3objects := [(7, [10, 12])] }

/-- The state after re-submitting the already-accepted first chunk of
resubState: a second part record with part number 1 is appended. -/
def c3After : ChunkState :=
  { layers := [{ freshLayer 7 3 with
                 parts := [⟨1, 0, 1⟩, ⟨2, 1, 1⟩, ⟨1, 0, 1⟩]
                 filename := some cName }],
    s3parts := [(7, 1, [10]), (7, 2, [11]), (7, 1, [10])], s3objects := [] }

/-- The state after the gapped delivery of chunks (0,1) and (2,1) of a
3-byte upload: finalized although byte 1 was never received. -/
def c4Final : ChunkState :=
  { layers := [{ id := 7, uploadLength := 3,
                 parts := [⟨1, 0, 1⟩, ⟨2, 2, 1⟩], allPartsReceived := true,
                 crop := some "a".toList, waterModel := some "b".toList,
                 climateModel := some "c".toList, scen := some "d".toList,
                 varName := some "e".toList, year := some 1,
                 filename := some cName, minValue := none, maxValue := none,
                 processedOk := true }],
    s3parts := [(7, 2, [3]), (7, 1, [1])], s3objects := [(7, [1, 3])] }

/-- A six-token filename whose tokens lie outside every vocabulary of
tools/uploader.py. -/
def c6Name : Str := "xx_yy_zz_ww_vv_7.tif".toList

/-- The state after the server accepts a chunk of the
vocabulary-violating upload c6Name. -/
def c6State : ChunkState :=
  { layers := [{ freshLayer 7 5 with
                 parts := [⟨1, 0, 1⟩]
                 filename := some c6Name }],
    s3parts := [(7, 1, [9])], s3objects := [] }

/-- The finalized state of a complete 3-chunk scenario upload: registered
with all_parts_received set and min_value, max_value never written. -/
def c7Final : ChunkState :=
  { layers := [{ id := 7, uploadLength := 3,
                 parts := [⟨1, 0, 1⟩, ⟨2, 1, 1⟩, ⟨3, 2, 1⟩],
                 allPartsReceived := true,
                 crop := some "wheat".toList,
                 waterModel := some "pcrglobwb".toList,
                 climateModel := some "hadgem2es".toList,
                 scen := some "rcp26".toList,
                 varName := some "wf".toList, year := some 2050,
                 filename := some exName, minValue := none, maxValue := none,
                 processedOk := true }],
    s3parts := [(7, 3, [3]), (7, 2, [2]), (7, 1, [1])],
    s3objects := [(7, [1, 2, 3])] }

/-- The state after one accepted chunk of a fresh 3-byte upload named
cName. -/
def c7Mid : ChunkState :=
  { layers := [{ freshLayer 7 3 with
                 parts := [⟨1, 0, 1⟩]
                 filename := some cName }],
    s3parts := [(7, 1, [10])], s3objects := [] }


theorem uploadChunk_nonfinal (st : ChunkState) (patch off tot len : Nat)
    (name : Str) (body : Bytes) (layer : LayerRec)
    (c w cl s v y : Str) (yr : Int)
    (hfind : st.layers.find? (fun l => l.id == patch) = some layer)
    (hparse : parseFilename name = some (c, w, cl, s, v, y))
    (hyr : parseInt? y = some yr)
    (hdup : findDuplicate st.layers c w cl s v yr = none)
    (hnf : off + len ≠ tot) (hlen : len ≠ 0) :
    uploadChunk st patch off tot name len body =
      .ok (recordPartOnly st patch layer (off / len + 1) off len name body) := by
  simp only [uploadChunk, hfind, hparse, hyr, hdup]
  rw [if_neg hnf, if_neg hlen]

theorem uploadChunk_final (st : ChunkState) (patch off tot len : Nat)
    (name : Str) (body : Bytes) (layer : LayerRec) (lastPart : PartRec)
    (c w cl s v y : Str) (yr : Int)
    (hfind : st.layers.find? (fun l => l.id == patch) = some layer)
    (hparse : parseFilename name = some (c, w, cl, s, v, y))
    (hyr : parseInt? y = some yr)
    (hdup : findDuplicate st.layers c w cl s v yr = none)
    (hf : off + len = tot)
    (hlast : layer.parts.getLast? = some lastPart) :
    uploadChunk st patch off tot name len body =
      .ok (recordPartAndComplete st patch layer (lastPart.partNumber + 1)
        off len name body c w cl s v yr) := by
  simp only [uploadChunk, hfind, hparse, hyr, hdup]
  rw [if_pos hf, hlast]

theorem parse_exName :
    parseFilename exName =
      some ("wheat".toList, "pcrglobwb".toList, "hadgem2es".toList,
            "rcp26".toList, "wf".toList, "2050".toList) := rfl

theorem parseInt_year : parseInt? "2050".toList = some 2050 := rfl

theorem stage_find (total L : Nat) (payload : Nat → Bytes) (k : Nat) :
    (stage total L payload k).layers.find? (fun l => l.id == 7) =
      some (stageLayer total L k) := rfl

theorem stage_dup (total L : Nat) (payload : Nat → Bytes) (k : Nat)
    (c w cl s v : Str) (yr : Int) :
    findDuplicate (stage total L payload k).layers c w cl s v yr = none := rfl

theorem partsUpTo_succ (L k : Nat) :
    partsUpTo L (k + 1) = partsUpTo L k ++ [⟨k + 1, k * L, L⟩] := by
  simp [partsUpTo, List.range_succ]

theorem s3Up_succ (payload : Nat → Bytes) (k : Nat) :
    s3Up payload (k + 1) = (7, k + 1, payload k) :: s3Up payload k := by
  simp [s3Up, List.range_succ]

theorem getLast?_partsUpTo (L k : Nat) :
    (partsUpTo L (k + 1)).getLast? = some ⟨k + 1, k * L, L⟩ := by
  rw [partsUpTo_succ]
  exact List.getLast?_concat _

theorem recordPartOnly_stage (total L : Nat) (payload : Nat → Bytes) (k : Nat) :
    recordPartOnly (stage total L payload k) 7 (stageLayer total L k)
      (k + 1) (k * L) L exName (payload k) = stage total L payload (k + 1) := by
  simp [recordPartOnly, stage, stageLayer, storeLayer, putPart, s3Up_succ,
        partsUpTo_succ, freshLayer]

theorem stage_step (total L n r : Nat) (payload : Nat → Bytes) (k : Nat)
    (hL : 0 < L) (htot : total = n * L + r) (hr : 0 < r) (hk : k < n) :
    uploadChunk (stage total L payload k) 7 (k * L) total exName L (payload k) =
      .ok (stage total L payload (k + 1)) := by
  have hlen : L ≠ 0 := Nat.pos_iff_ne_zero.mp hL
  have h1 : (k + 1) * L ≤ n * L := Nat.mul_le_mul_right L hk
  have hnf : k * L + L ≠ total := by
    rw [htot, Nat.succ_mul] at *
    intro h
    omega
  rw [uploadChunk_nonfinal (stage total L payload k) 7 (k * L) total L exName
        (payload k) (stageLayer total L k) "wheat".toList "pcrglobwb".toList
        "hadgem2es".toList "rcp26".toList "wf".toList "2050".toList 2050
        (stage_find total L payload k) parse_exName parseInt_year
        (stage_dup total L payload k _ _ _ _ _ 2050) hnf hlen]
  rw [Nat.mul_div_cancel k hL, recordPartOnly_stage]

theorem getPart_cons_self (ps : List (Nat × Nat × Bytes)) (lid pn : Nat) (b : Bytes) :
    getPart ((lid, pn, b) :: ps) lid pn = b := by
  simp [getPart, List.find?]

theorem getPart_cons_ne (ps : List (Nat × Nat × Bytes)) (lid pn pn' : Nat)
    (b : Bytes) (hne : pn' ≠ pn) :
    getPart ((lid, pn', b) :: ps) lid pn = getPart ps lid pn := by
  simp only [getPart, List.find?]
  rw [show (pn' == pn) = false from beq_eq_false_iff_ne.mpr hne,
      Bool.and_false]

theorem getPart_s3Up (payload : Nat → Bytes) (k i : Nat) (hik : i < k) :
    getPart (s3Up payload k) 7 (i + 1) = payload i := by
  induction k with
  | zero => omega
  | succ m ih =>
    rw [s3Up_succ]
    by_cases h : i = m
    · subst h
      exact getPart_cons_self _ _ _ _
    · rw [getPart_cons_ne _ _ _ _ _ (by omega)]
      exact ih (by omega)

theorem partsUpTo_map_pn (L n : Nat) :
    (partsUpTo L n).map (fun p => p.partNumber) = (List.range n).map (· + 1) := by
  simp [partsUpTo, List.map_map]

theorem sorted_dedup_range_succ (n : Nat) :
    (((List.range (n + 1)).map (· + 1)).dedup).insertionSort (· ≤ ·) =
      (List.range (n + 1)).map (· + 1) := by
  have hnd : ((List.range (n + 1)).map (· + 1)).Nodup :=
    (List.nodup_range _).map (fun a b h => by omega)
  rw [List.dedup_eq_self.mpr hnd]
  apply List.Sorted.insertionSort_eq
  exact (List.pairwise_lt_range _).map _ (fun a b h => by omega)

theorem assembleObject_inOrder (n L r : Nat) (payload : Nat → Bytes)
    (lastBody : Bytes) :
    assembleObject ((7, n + 1, lastBody) :: s3Up payload n) 7
      ((partsUpTo L n ++ [(⟨n + 1, n * L, r⟩ : PartRec)]).map
        (fun p => p.partNumber)) =
      ((List.range n).map payload).flatten ++ lastBody := by
  have hmap : (partsUpTo L n ++ [(⟨n + 1, n * L, r⟩ : PartRec)]).map
      (fun p => p.partNumber) = (List.range (n + 1)).map (· + 1) := by
    rw [List.map_append, partsUpTo_map_pn]
    simp [List.range_succ]
  rw [hmap]
  unfold assembleObject
  rw [sorted_dedup_range_succ]
  rw [List.map_map]
  rw [List.range_succ, List.map_append]
  have h1 : (List.range n).map
      ((fun pn => getPart ((7, n + 1, lastBody) :: s3Up payload n) 7 pn) ∘ (· + 1)) =
      (List.range n).map payload := by
    apply List.map_congr_left
    intro i hi
    have hin : i < n := List.mem_range.mp hi
    simp only [Function.comp]
    rw [getPart_cons_ne _ _ _ _ _ (by omega), getPart_s3Up payload n i hin]
  rw [h1]
  simp [getPart_cons_self, List.flatten_append]

theorem runChunks_append (st : ChunkState) (patch tot : Nat) (nm : Str)
    (xs ys : List (Nat × Nat × Bytes)) :
    runChunks st patch tot nm (xs ++ ys) =
      match runChunks st patch tot nm xs with
      | .ok st' => runChunks st' patch tot nm ys
      | .error e => .error e := by
  induction xs generalizing st with
  | nil => simp [runChunks]
  | cons c rest ih =>
    obtain ⟨off, len, body⟩ := c
    simp only [List.cons_append, runChunks]
    cases uploadChunk st patch off tot nm len body with
    | error e => rfl
    | ok st' => exact ih st'

theorem runChunks_uniform (total L n r : Nat) (payload : Nat → Bytes)
    (hL : 0 < L) (htot : total = n * L + r) (hr : 0 < r) :
    ∀ k, k ≤ n →
      runChunks (initState total) 7 total exName (uniformChunks L payload k) =
        .ok (stage total L payload k) := by
  intro k
  induction k with
  | zero => intro _; rfl
  | succ m ih =>
    intro hk
    have hchunks : uniformChunks L payload (m + 1) =
        uniformChunks L payload m ++ [(m * L, L, payload m)] := by
      simp [uniformChunks, List.range_succ]
    rw [hchunks, runChunks_append, ih (by omega)]
    simp only [runChunks,
      stage_step total L n r payload m hL htot hr (by omega)]

theorem recordPartAndComplete_stage (total L n r : Nat)
    (payload : Nat → Bytes) (lastBody : Bytes) (htot : total = n * L + r) :
    recordPartAndComplete (stage total L payload n) 7 (stageLayer total L n)
      (n + 1) (n * L) r exName lastBody "wheat".toList "pcrglobwb".toList
      "hadgem2es".toList "rcp26".toList "wf".toList 2050 =
      finalStage n L r payload lastBody := by
  subst htot
  simp only [recordPartAndComplete, stage, stageLayer, storeLayer, putPart,
    finalStage, finalLayer, freshLayer, List.map]
  rw [assembleObject_inOrder]
  simp

theorem final_step (total L n r : Nat) (payload : Nat → Bytes)
    (lastBody : Bytes) (hn : 1 ≤ n) (htot : total = n * L + r) :
    uploadChunk (stage total L payload n) 7 (n * L) total exName r lastBody =
      .ok (finalStage n L r payload lastBody) := by
  obtain ⟨m, rfl⟩ : ∃ m, n = m + 1 := ⟨n - 1, by omega⟩
  rw [uploadChunk_final (stage total L payload (m + 1)) 7 ((m + 1) * L) total r
        exName lastBody (stageLayer total L (m + 1)) ⟨m + 1, m * L, L⟩
        "wheat".toList "pcrglobwb".toList "hadgem2es".toList "rcp26".toList
        "wf".toList "2050".toList 2050
        (stage_find total L payload (m + 1)) parse_exName parseInt_year
        (stage_dup total L payload (m + 1) _ _ _ _ _ 2050) (by omega)
        (getLast?_partsUpTo L m)]
  rw [recordPartAndComplete_stage total L (m + 1) r payload lastBody htot]

theorem runChunks_inOrder (total L n r : Nat) (payload : Nat → Bytes)
    (lastBody : Bytes) (hn : 1 ≤ n) (hL : 0 < L) (htot : total = n * L + r)
    (hr : 0 < r) :
    runChunks (initState total) 7 total exName
        (inOrderChunks n L r payload lastBody) =
      .ok (finalStage n L r payload lastBody) := by
  rw [inOrderChunks, runChunks_append,
      runChunks_uniform total L n r payload hL htot hr n (by omega)]
  simp only [runChunks, final_step total L n r payload lastBody hn htot]

theorem countCovering_append (xs ys : List PartRec) (b : Nat) :
    countCovering (xs ++ ys) b = countCovering xs b + countCovering ys b := by
  simp [countCovering, List.filter_append]

theorem countCovering_single (p : PartRec) (b : Nat) :
    countCovering [p] b =
      if p.offset ≤ b ∧ b < p.offset + p.length then 1 else 0 := by
  simp only [countCovering, List.filter]
  by_cases h1 : p.offset ≤ b
  · by_cases h2 : b < p.offset + p.length
    · simp [h1, h2]
    · simp [h1, h2]
  · simp [h1]

theorem countCovering_partsUpTo (L n b : Nat) (hL : 0 < L) :
    countCovering (partsUpTo L n) b = if b < n * L then 1 else 0 := by
  induction n with
  | zero => simp [partsUpTo, countCovering]
  | succ m ih =>
    rw [partsUpTo_succ, countCovering_append, ih, countCovering_single]
    simp only []
    have hmono : m * L ≤ (m + 1) * L := by
      rw [Nat.succ_mul]; omega
    by_cases hb : b < m * L
    · rw [if_pos hb, if_neg (by omega), if_pos (by omega)]
    · rw [if_neg hb]
      by_cases hb2 : b < (m + 1) * L
      · rw [Nat.succ_mul] at hb2
        rw [if_pos ⟨by omega, by omega⟩, if_pos (by rw [Nat.succ_mul]; omega)]
      · rw [Nat.succ_mul] at hb2
        rw [if_neg (by omega), if_neg (by rw [Nat.succ_mul]; omega)]

theorem coversExactly_finalParts (L n r : Nat) (hL : 0 < L) (hr : 0 < r)
    (hrL : r ≤ L) :
    CoversExactly (partsUpTo L n ++ [(⟨n + 1, n * L, r⟩ : PartRec)])
      (n * L + r) := by
  intro b hb
  rw [countCovering_append, countCovering_partsUpTo L n b hL,
      countCovering_single]
  simp only []
  by_cases hbn : b < n * L
  · rw [if_pos hbn, if_neg (by omega)]
  · rw [if_neg hbn, if_pos ⟨by omega, by omega⟩]

theorem find?_storeLayer (layers : List LayerRec) (patch : Nat)
    (layer l' : LayerRec)
    (hfind : layers.find? (fun l => l.id == patch) = some layer)
    (hid : l'.id = layer.id) :
    (storeLayer layers patch l').find? (fun l => l.id == patch) = some l' := by
  induction layers with
  | nil => simp [List.find?] at hfind
  | cons a rest ih =>
    simp only [storeLayer, List.map] at *
    by_cases ha : (a.id == patch) = true
    · simp only [List.find?, ha] at hfind
      have haeq : a = layer := by injection hfind
      subst haeq
      have hl' : (l'.id == patch) = true := by rw [hid]; exact ha
      rw [if_pos ha]
      simp [List.find?, hl']
    · rw [Bool.not_eq_true] at ha
      simp only [List.find?, ha] at hfind
      rw [if_neg (by simp [ha])]
      simp only [List.find?, ha]
      exact ih hfind

theorem mem_storeLayer (layers : List LayerRec) (patch : Nat)
    (l' x : LayerRec) (hx : x ∈ storeLayer layers patch l') :
    x = l' ∨ x ∈ layers := by
  simp only [storeLayer, List.mem_map] at hx
  obtain ⟨l, hl, heq⟩ := hx
  by_cases h : (l.id == patch) = true
  · rw [if_pos h] at heq
    exact .inl heq.symm
  · rw [if_neg h] at heq
    exact .inr (heq ▸ hl)

theorem parseFilename_isSome_iff (name : Str) :
    (parseFilename name).isSome ↔ (stemTokens name).length = 6 := by
  unfold parseFilename
  rcases h : stemTokens name with _ | ⟨a, _ | ⟨b, _ | ⟨c, _ | ⟨d, _ | ⟨e,
    _ | ⟨f, _ | ⟨g, rest⟩⟩⟩⟩⟩⟩⟩ <;> simp

theorem uploadChunk_ne_notFound (st : ChunkState) (patch off tot len : Nat)
    (name : Str) (body : Bytes) (layer : LayerRec)
    (hf : st.layers.find? (fun l => l.id == patch) = some layer) :
    uploadChunk st patch off tot name len body ≠ .error .notFound := by
  unfold uploadChunk
  simp only [hf]
  cases hp : parseFilename name with
  | none => simp
  | some tup =>
    obtain ⟨c, w, cl, s, v, y⟩ := tup
    simp only []
    cases hy : parseInt? y with
    | none => simp
    | some yr =>
      simp only []
      cases hd : findDuplicate st.layers c w cl s v yr with
      | some d => simp
      | none =>
        simp only []
        by_cases hft : off + len = tot
        · rw [if_pos hft]
          cases layer.parts.getLast? <;> simp
        · rw [if_neg hft]
          by_cases hl : len = 0
          · rw [if_pos hl]
            simp
          · rw [if_neg hl]
            simp

theorem uploadChunk_preserves_stats (st : ChunkState)
    (patch off tot len : Nat) (name : Str) (body : Bytes) (st' : ChunkState)
    (hok : uploadChunk st patch off tot name len body = .ok st') :
    ∀ l' ∈ st'.layers, ∃ l ∈ st.layers,
      l'.minValue = l.minValue ∧ l'.maxValue = l.maxValue := by
  unfold uploadChunk at hok
  cases hf : st.layers.find? (fun l => l.id == patch) with
  | none => simp [hf] at hok
  | some layer =>
    have hmem : layer ∈ st.layers := List.mem_of_find?_eq_some hf
    simp only [hf] at hok
    cases hp : parseFilename name with
    | none => simp [hp] at hok
    | some tup =>
      obtain ⟨c, w, cl, s, v, y⟩ := tup
      simp only [hp] at hok
      cases hy : parseInt? y with
      | none => simp [hy] at hok
      | some yr =>
        simp only [hy] at hok
        cases hd : findDuplicate st.layers c w cl s v yr with
        | some d => simp [hd] at hok
        | none =>
          simp only [hd] at hok
          by_cases hft : off + len = tot
          · rw [if_pos hft] at hok
            cases hgl : layer.parts.getLast? with
            | none => simp [hgl] at hok
            | some lp =>
              simp only [hgl] at hok
              have hst : recordPartAndComplete st patch layer
                  (lp.partNumber + 1) off len name body c w cl s v yr = st' := by
                injection hok
              subst hst
              intro l' hl'
              simp only [recordPartAndComplete] at hl'
              rcases mem_storeLayer _ _ _ _ hl' with h | h
              · exact ⟨layer, hmem, by rw [h], by rw [h]⟩
              · exact ⟨l', h, rfl, rfl⟩
          · rw [if_neg hft] at hok
            by_cases hl : len = 0
            · rw [if_pos hl] at hok
              simp at hok
            · rw [if_neg hl] at hok
              have hst : recordPartOnly st patch layer
                  (off / len + 1) off len name body = st' := by
                injection hok
              subst hst
              intro l' hl'
              simp only [recordPartOnly] at hl'
              rcases mem_storeLayer _ _ _ _ hl' with h | h
              · exact ⟨layer, hmem, by rw [h], by rw [h]⟩
              · exact ⟨l', h, rfl, rfl⟩

theorem uploadChunk_duplicate (st : ChunkState) (patch off tot len : Nat)
    (name : Str) (body : Bytes) (layer d : LayerRec)
    (c w cl s v y : Str) (yr : Int)
    (hfind : st.layers.find? (fun l => l.id == patch) = some layer)
    (hparse : parseFilename name = some (c, w, cl, s, v, y))
    (hyr : parseInt? y = some yr)
    (hdup : findDuplicate st.layers c w cl s v yr = some d) :
    uploadChunk st patch off tot name len body = .error .duplicate := by
  unfold uploadChunk
  simp only [hfind, hparse, hyr, hdup]

theorem uploadChunk_invalidName (st : ChunkState) (patch off tot len : Nat)
    (name : Str) (body : Bytes) (layer : LayerRec)
    (hfind : st.layers.find? (fun l => l.id == patch) = some layer)
    (hparse : parseFilename name = none) :
    uploadChunk st patch off tot name len body = .error .invalidFilename := by
  unfold uploadChunk
  simp only [hfind, hparse]

theorem uploadChunk_final_noParts (st : ChunkState) (patch off tot len : Nat)
    (name : Str) (body : Bytes) (layer : LayerRec)
    (c w cl s v y : Str) (yr : Int)
    (hfind : st.layers.find? (fun l => l.id == patch) = some layer)
    (hparse : parseFilename name = some (c, w, cl, s, v, y))
    (hyr : parseInt? y = some yr)
    (hdup : findDuplicate st.layers c w cl s v yr = none)
    (hf : off + len = tot)
    (hparts : layer.parts = []) :
    uploadChunk st patch off tot name len body = .error .serverError := by
  unfold uploadChunk
  simp only [hfind, hparse, hyr, hdup]
  rw [if_pos hf, hparts]
  rfl

theorem finalParts_map_pn (n L r : Nat) :
    (partsUpTo L n ++ [(⟨n + 1, n * L, r⟩ : PartRec)]).map
      (fun p => p.partNumber) = (List.range (n + 1)).map (· + 1) := by
  rw [List.map_append, partsUpTo_map_pn]
  simp [List.range_succ]

theorem pairwise_range_map_succ (n : Nat) :
    ((List.range (n + 1)).map (· + 1)).Pairwise (· < ·) :=
  (List.pairwise_lt_range _).map _ (fun a b h => by omega)

theorem getLast?_range_map_succ (n : Nat) :
    ((List.range (n + 1)).map (· + 1)).getLast? = some (n + 1) := by
  rw [List.range_succ, List.map_append]
  exact List.getLast?_concat _

theorem ceilDiv_uniform (n L r : Nat) (hL : 0 < L) (hr : 0 < r)
    (hrL : r ≤ L) : (n * L + r + L - 1) / L = n + 1 := by
  have h1 : n * L + r + L - 1 = (r + L - 1) + n * L := by omega
  rw [h1, Nat.add_mul_div_right _ _ hL]
  have h2 : (r + L - 1) / L = 1 := by
    apply Nat.div_eq_of_lt_le <;> omega
  omega

/-- Claim C1, counterexample: the chunks c1Chunks cover the 3-byte length
exactly once per byte but arrive out of order; the finalized object holds
bytes 10 and 12 instead of the offset-order concatenation 10, 11, 12,
because the terminal chunk's part number (last recorded part's number
plus one) collides with the part number of the chunk at offset 1. -/
theorem c1_resumability_counterexample :
    countChunkCovering c1Chunks 0 = 1 ∧ countChunkCovering c1Chunks 1 = 1 ∧
    countChunkCovering c1Chunks 2 = 1 ∧
    runChunks (initState 3) 7 3 cName c1Chunks = .ok c1Final ∧
    c1Final.s3objects = [(7, [10, 12])] ∧
    [10, 12] ≠ [10] ++ [11] ++ [12] :=
  ⟨by decide, by decide, by decide, by rfl, by rfl, by decide⟩

/-- Claim C1, amended: when the chunks arrive in increasing offset order —
n uniform chunks of size L followed by a shorter final chunk — the object
assembled by the completion call is the concatenation of the chunk bodies
in offset order; arrival-order independence does not hold (see the
counterexample). -/
theorem c1_resumability_amended (n L r : Nat) (payload : Nat → Bytes)
    (lastBody : Bytes) (hn : 1 ≤ n) (hL : 0 < L) (hr : 0 < r) (hrL : r < L) :
    runChunks (initState (n * L + r)) 7 (n * L + r) exName
        (inOrderChunks n L r payload lastBody) =
      .ok (finalStage n L r payload lastBody) ∧
    (finalStage n L r payload lastBody).s3objects =
      [(7, ((List.range n).map payload).flatten ++ lastBody)] :=
  ⟨runChunks_inOrder (n * L + r) L n r payload lastBody hn hL rfl hr, rfl⟩

/-- Witness for C1 amended at n = 2, L = 2, r = 1. -/
theorem c1_resumability_amended_witness :
    ((1 : Nat) ≤ 2 ∧ (0 : Nat) < 2 ∧ (0 : Nat) < 1 ∧ (1 : Nat) < 2) ∧
    (runChunks (initState (2 * 2 + 1)) 7 (2 * 2 + 1) exName
        (inOrderChunks 2 2 1 (fun i => [i]) [9]) =
      .ok (finalStage 2 2 1 (fun i => [i]) [9]) ∧
     (finalStage 2 2 1 (fun i => [i]) [9]).s3objects =
      [(7, ((List.range 2).map (fun i => [i])).flatten ++ [9])]) :=
  ⟨⟨by decide, by decide, by decide, by decide⟩,
   c1_resumability_amended 2 2 1 (fun i => [i]) [9] (by decide) (by decide)
     (by decide) (by decide)⟩

/-- Claim C2: a chunk is classified terminal exactly when offset plus
content length equals the declared total length (the two branches below
are guarded by that equation and are exhaustive); a non-terminal accepted
chunk gets part number offset divided by content length, plus one; a
terminal accepted chunk gets the last recorded part's number plus one;
and over an in-order delivery of n uniform chunks of size L plus a
shorter final chunk, the recorded part numbers are 1 up to n+1, strictly
increasing with offset, the final one equal to the ceiling of
total length over L. -/
theorem c2_part_number_assignment :
    (∀ (st : ChunkState) (patch off tot len : Nat) (name : Str)
        (body : Bytes) (layer : LayerRec) (c w cl s v y : Str) (yr : Int),
      st.layers.find? (fun l => l.id == patch) = some layer →
      parseFilename name = some (c, w, cl, s, v, y) →
      parseInt? y = some yr →
      findDuplicate st.layers c w cl s v yr = none →
      off + len ≠ tot → len ≠ 0 →
      uploadChunk st patch off tot name len body =
        .ok (recordPartOnly st patch layer (off / len + 1) off len name body)) ∧
    (∀ (st : ChunkState) (patch off tot len : Nat) (name : Str)
        (body : Bytes) (layer : LayerRec) (lastPart : PartRec)
        (c w cl s v y : Str) (yr : Int),
      st.layers.find? (fun l => l.id == patch) = some layer →
      parseFilename name = some (c, w, cl, s, v, y) →
      parseInt? y = some yr →
      findDuplicate st.layers c w cl s v yr = none →
      off + len = tot → layer.parts.getLast? = some lastPart →
      uploadChunk st patch off tot name len body =
        .ok (recordPartAndComplete st patch layer (lastPart.partNumber + 1)
          off len name body c w cl s v yr)) ∧
    (∀ (n L r : Nat) (payload : Nat → Bytes) (lastBody : Bytes),
      1 ≤ n → 0 < L → 0 < r → r < L →
      runChunks (initState (n * L + r)) 7 (n * L + r) exName
          (inOrderChunks n L r payload lastBody) =
        .ok (finalStage n L r payload lastBody) ∧
      (finalLayer n L r (n * L + r)).parts.map (fun p => p.partNumber) =
        (List.range (n + 1)).map (· + 1) ∧
      ((finalLayer n L r (n * L + r)).parts.map
        (fun p => p.partNumber)).Pairwise (· < ·) ∧
      ((finalLayer n L r (n * L + r)).parts.map
        (fun p => p.partNumber)).getLast? =
          some ((n * L + r + L - 1) / L)) := by
  refine ⟨?_, ?_, ?_⟩
  · intro st patch off tot len name body layer c w cl s v y yr
      hfind hparse hyr hdup hnf hlen
    exact uploadChunk_nonfinal st patch off tot len name body layer
      c w cl s v y yr hfind hparse hyr hdup hnf hlen
  · intro st patch off tot len name body layer lastPart c w cl s v y yr
      hfind hparse hyr hdup hf hlast
    exact uploadChunk_final st patch off tot len name body layer lastPart
      c w cl s v y yr hfind hparse hyr hdup hf hlast
  · intro n L r payload lastBody hn hL hr hrL
    have hparts : (finalLayer n L r (n * L + r)).parts =
        partsUpTo L n ++ [(⟨n + 1, n * L, r⟩ : PartRec)] := rfl
    refine ⟨runChunks_inOrder (n * L + r) L n r payload lastBody hn hL rfl hr,
      ?_, ?_, ?_⟩
    · rw [hparts, finalParts_map_pn]
    · rw [hparts, finalParts_map_pn]
      exact pairwise_range_map_succ n
    · rw [hparts, finalParts_map_pn, getLast?_range_map_succ,
        ceilDiv_uniform n L r hL hr (by omega)]

/-- Witness for C2 at n = 1, L = 2, r = 1 and, for the two per-chunk
conjuncts, a fresh 5-byte session receiving the non-terminal chunk (0,2)
and a session holding one part receiving the terminal chunk (2,1) of a
3-byte upload. -/
theorem c2_part_number_assignment_witness :
    ((initState 5).layers.find? (fun l => l.id == 7) =
        some (freshLayer 7 5) ∧
     parseFilename cName = some ("a".toList, "b".toList, "c".toList,
       "d".toList, "e".toList, "1".toList) ∧
     parseInt? "1".toList = some 1 ∧
     findDuplicate (initState 5).layers "a".toList "b".toList "c".toList
       "d".toList "e".toList 1 = none ∧
     (0 + 2 : Nat) ≠ 5 ∧ (2 : Nat) ≠ 0 ∧
     uploadChunk (initState 5) 7 0 5 cName 2 [20, 21] =
       .ok (recordPartOnly (initState 5) 7 (freshLayer 7 5) (0 / 2 + 1)
         0 2 cName [20, 21])) ∧
    ((1 : Nat) ≤ 1 ∧ (0 : Nat) < 2 ∧ (0 : Nat) < 1 ∧ (1 : Nat) < 2 ∧
     runChunks (initState (1 * 2 + 1)) 7 (1 * 2 + 1) exName
         (inOrderChunks 1 2 1 (fun i => [i]) [9]) =
       .ok (finalStage 1 2 1 (fun i => [i]) [9]) ∧
     (finalLayer 1 2 1 (1 * 2 + 1)).parts.map (fun p => p.partNumber) =
       (List.range 2).map (· + 1)) := by
  refine ⟨⟨by rfl, by rfl, by rfl, by rfl, by decide, by decide, ?_⟩,
    by decide, by decide, by decide, by decide, ?_, ?_⟩
  · exact c2_part_number_assignment.1 (initState 5) 7 0 5 2 cName [20, 21]
      (freshLayer 7 5) _ _ _ _ _ _ 1 (by rfl) (by rfl) (by rfl) (by rfl)
      (by decide) (by decide)
  · exact (c2_part_number_assignment.2.2 1 2 1 (fun i => [i]) [9]
      (by decide) (by decide) (by decide) (by decide)).1
  · exact (c2_part_number_assignment.2.2 1 2 1 (fun i => [i]) [9]
      (by decide) (by decide) (by decide) (by decide)).2.1

/-- Claim C3, counterexample: after the two chunks (0,1) and (1,1) of a
3-byte upload are accepted (state resubState, next expected offset 2),
re-submitting the first chunk with identical bytes appends a second part
record with part number 1 instead of replacing the existing one, and the
status query's next expected offset drops from 2 to 1. -/
theorem c3_idempotent_resubmission_counterexample :
    runChunks (initState 3) 7 3 cName [(0, 1, [10]), (1, 1, [11])] =
      .ok resubState ∧
    checkUploadedChunks resubState 7 = .ok 2 ∧
    uploadChunk resubState 7 0 3 cName 1 [10] = .ok c3After ∧
    c3After.layers.map (fun l => l.parts) =
      [[⟨1, 0, 1⟩, ⟨2, 1, 1⟩, ⟨1, 0, 1⟩]] ∧
    checkUploadedChunks c3After 7 = .ok 1 ∧ (1 : Nat) ≠ 2 :=
  ⟨by rfl, by rfl, by rfl, by rfl, by rfl, by decide⟩

/-- Claim C3, amended: re-submitting an already-accepted non-terminal
chunk appends a second part record carrying the same part number — the
part list is not deduplicated, so it gains a duplicate entry — and the
status query's next expected offset becomes the resubmitted chunk's
offset plus length (unchanged only when that chunk was the most recently
recorded one); the S3-side part itself is overwritten in place. -/
theorem c3_resubmission_appends (st : ChunkState) (patch off tot len : Nat)
    (name : Str) (body : Bytes) (layer : LayerRec)
    (c w cl s v y : Str) (yr : Int)
    (hfind : st.layers.find? (fun l => l.id == patch) = some layer)
    (hparse : parseFilename name = some (c, w, cl, s, v, y))
    (hyr : parseInt? y = some yr)
    (hdup : findDuplicate st.layers c w cl s v yr = none)
    (hnf : off + len ≠ tot) (hlen : len ≠ 0)
    (hprev : (⟨off / len + 1, off, len⟩ : PartRec) ∈ layer.parts) :
    uploadChunk st patch off tot name len body =
      .ok (recordPartOnly st patch layer (off / len + 1) off len name body) ∧
    (recordPartOnly st patch layer (off / len + 1) off len name
        body).layers.find? (fun l => l.id == patch) =
      some { layer with
             parts := layer.parts ++ [⟨off / len + 1, off, len⟩]
             filename := some name } ∧
    ¬ (layer.parts ++ [(⟨off / len + 1, off, len⟩ : PartRec)]).Nodup ∧
    checkUploadedChunks
      (recordPartOnly st patch layer (off / len + 1) off len name body)
      patch = .ok (off + len) := by
  have hupd : (recordPartOnly st patch layer (off / len + 1) off len name
      body).layers.find? (fun l => l.id == patch) =
      some { layer with
             parts := layer.parts ++ [⟨off / len + 1, off, len⟩]
             filename := some name } := by
    apply find?_storeLayer st.layers patch layer _ hfind
    rfl
  refine ⟨uploadChunk_nonfinal st patch off tot len name body layer
    c w cl s v y yr hfind hparse hyr hdup hnf hlen, hupd, ?_, ?_⟩
  · intro hnd
    rw [List.nodup_append] at hnd
    exact hnd.2.2 hprev (List.mem_singleton_self _)
  · unfold checkUploadedChunks
    rw [hupd]
    unfold nextExpectedOffset
    simp only [List.getLast?_concat]

/-- Witness for C3 amended: resubmitting chunk (0,1) of resubState. -/
theorem c3_resubmission_appends_witness :
    (resubState.layers.find? (fun l => l.id == 7) =
        some { freshLayer 7 3 with
               parts := [⟨1, 0, 1⟩, ⟨2, 1, 1⟩]
               filename := some cName } ∧
     parseFilename cName = some ("a".toList, "b".toList, "c".toList,
       "d".toList, "e".toList, "1".toList) ∧
     parseInt? "1".toList = some 1 ∧
     findDuplicate resubState.layers "a".toList "b".toList "c".toList
       "d".toList "e".toList 1 = none ∧
     (0 + 1 : Nat) ≠ 3 ∧ (1 : Nat) ≠ 0 ∧
     (⟨0 / 1 + 1, 0, 1⟩ : PartRec) ∈
       ({ freshLayer 7 3 with
          parts := [⟨1, 0, 1⟩, ⟨2, 1, 1⟩]
          filename := some cName } : LayerRec).parts) ∧
    checkUploadedChunks
      (recordPartOnly resubState 7
        ({ freshLayer 7 3 with
           parts := [⟨1, 0, 1⟩, ⟨2, 1, 1⟩]
           filename := some cName }) (0 / 1 + 1) 0 1 cName [10]) 7 =
      .ok (0 + 1) := by
  refine ⟨⟨by rfl, by rfl, by rfl, by rfl, by decide, by decide, by decide⟩, ?_⟩
  exact (c3_resubmission_appends resubState 7 0 3 1 cName [10]
    ({ freshLayer 7 3 with
       parts := [⟨1, 0, 1⟩, ⟨2, 1, 1⟩]
       filename := some cName }) _ _ _ _ _ _ 1 (by rfl) (by rfl) (by rfl)
    (by rfl) (by decide) (by decide) (by decide)).2.2.2

/-- Claim C4, counterexample: the delivery of chunks (0,1) and (2,1) of a
declared 3-byte upload reaches the finalized state — all_parts_received
set and the completion call issued, producing a stored object — although
byte 1 is covered by no recorded part, so the coverage invariant is
violated and no check prevented the completion call. -/
theorem c4_coverage_counterexample :
    runChunks (initState 3) 7 3 cName [(0, 1, [1]), (2, 1, [3])] =
      .ok c4Final ∧
    c4Final.layers.map (fun l => l.allPartsReceived) = [true] ∧
    c4Final.s3objects = [(7, [1, 3])] ∧
    c4Final.layers.map (fun l => countCovering l.parts 1) = [0] :=
  ⟨by rfl, by rfl, by rfl, by rfl⟩

/-- Claim C4, amended: the handler performs no coverage check before the
completion call (see the counterexample); under an in-order delivery of n
uniform chunks of size L and a shorter final chunk, the finalized
session's parts do cover the declared length exactly once per byte and
their part numbers are strictly increasing in offset order. -/
theorem c4_coverage_amended (n L r : Nat) (payload : Nat → Bytes)
    (lastBody : Bytes) (hn : 1 ≤ n) (hL : 0 < L) (hr : 0 < r) (hrL : r < L) :
    runChunks (initState (n * L + r)) 7 (n * L + r) exName
        (inOrderChunks n L r payload lastBody) =
      .ok (finalStage n L r payload lastBody) ∧
    CoversExactly (finalLayer n L r (n * L + r)).parts (n * L + r) ∧
    ((finalLayer n L r (n * L + r)).parts.map
      (fun p => p.partNumber)).Pairwise (· < ·) := by
  have hparts : (finalLayer n L r (n * L + r)).parts =
      partsUpTo L n ++ [(⟨n + 1, n * L, r⟩ : PartRec)] := rfl
  refine ⟨runChunks_inOrder (n * L + r) L n r payload lastBody hn hL rfl hr,
    ?_, ?_⟩
  · rw [hparts]
    exact coversExactly_finalParts L n r hL hr (by omega)
  · rw [hparts, finalParts_map_pn]
    exact pairwise_range_map_succ n

/-- Witness for C4 amended at n = 1, L = 2, r = 1. -/
theorem c4_coverage_amended_witness :
    ((1 : Nat) ≤ 1 ∧ (0 : Nat) < 2 ∧ (0 : Nat) < 1 ∧ (1 : Nat) < 2) ∧
    (runChunks (initState (1 * 2 + 1)) 7 (1 * 2 + 1) exName
        (inOrderChunks 1 2 1 (fun i => [i]) [9]) =
      .ok (finalStage 1 2 1 (fun i => [i]) [9]) ∧
     CoversExactly (finalLayer 1 2 1 (1 * 2 + 1)).parts (1 * 2 + 1)) := by
  have h := c4_coverage_amended 1 2 1 (fun i => [i]) [9] (by decide)
    (by decide) (by decide) (by decide)
  exact ⟨⟨by decide, by decide, by decide, by decide⟩, h.1, h.2.1⟩

/-- Claim C5, counterexample: with dupState holding a fully received layer
whose metadata equals what cName parses to, a client request carrying
overwrite_duplicates set to true is still rejected with 409 — the error
result carries no state, so the existing catalog entry is not deleted and
no replacement upload proceeds; the flag changes nothing. -/
theorem c5_overwrite_counterexample :
    uploadChunkWithOverwrite true dupState 7 0 3 cName 1 [9] =
      .error .duplicate ∧
    uploadChunkWithOverwrite false dupState 7 0 3 cName 1 [9] =
      .error .duplicate ∧
    statusCode .duplicate = 409 ∧
    dupState.layers.map (fun l => l.allPartsReceived) = [true] :=
  ⟨by rfl, by rfl, by rfl, by rfl⟩

/-- Claim C5, amended: the server declares no overwrite parameter, so the
request outcome is independent of the client flag and a duplicate upload
always fails with 409; the client tool's overwrite flag only controls its
local pre-filtering — with overwrite every file is attempted, without it
files whose filename already exists on the server are skipped. -/
theorem c5_overwrite_amended :
    (∀ (ow₁ ow₂ : Bool) (st : ChunkState) (patch off tot len : Nat)
        (name : Str) (body : Bytes),
      uploadChunkWithOverwrite ow₁ st patch off tot name len body =
        uploadChunkWithOverwrite ow₂ st patch off tot name len body) ∧
    (∀ (ow : Bool) (st : ChunkState) (patch off tot len : Nat) (name : Str)
        (body : Bytes) (layer d : LayerRec) (c w cl s v y : Str) (yr : Int),
      st.layers.find? (fun l => l.id == patch) = some layer →
      parseFilename name = some (c, w, cl, s, v, y) →
      parseInt? y = some yr →
      findDuplicate st.layers c w cl s v yr = some d →
      uploadChunkWithOverwrite ow st patch off tot name len body =
        .error .duplicate) ∧
    statusCode .duplicate = 409 ∧
    (∀ (files : List (Str × Str)) (existing : List Str),
      filterExistingFiles files existing true = files) ∧
    (∀ (files : List (Str × Str)) (existing : List Str) (fp : Str × Str),
      fp ∈ filterExistingFiles files existing false →
      fp ∈ files ∧ existing.contains fp.2 = false) := by
  refine ⟨fun ow₁ ow₂ st patch off tot len name body => rfl,
    ?_, rfl, fun files existing => rfl, ?_⟩
  · intro ow st patch off tot len name body layer d c w cl s v y yr
      hfind hparse hyr hdup
    exact uploadChunk_duplicate st patch off tot len name body layer d
      c w cl s v y yr hfind hparse hyr hdup
  · intro files existing fp hfp
    unfold filterExistingFiles at hfp
    rw [if_neg (by decide)] at hfp
    have h := List.of_mem_filter hfp
    exact ⟨List.mem_of_mem_filter hfp, by simpa using h⟩

/-- Witness for C5 amended: the duplicate conjunct applied at dupState
with the flag set. -/
theorem c5_overwrite_amended_witness :
    (dupState.layers.find? (fun l => l.id == 7) = some dupLayer ∧
     parseFilename cName = some ("a".toList, "b".toList, "c".toList,
       "d".toList, "e".toList, "1".toList) ∧
     parseInt? "1".toList = some 1 ∧
     findDuplicate dupState.layers "a".toList "b".toList "c".toList
       "d".toList "e".toList 1 = some dupLayer) ∧
    uploadChunkWithOverwrite true dupState 7 0 3 cName 1 [9] =
      .error .duplicate := by
  refine ⟨⟨by rfl, by rfl, by rfl, by rfl⟩, ?_⟩
  exact c5_overwrite_amended.2.1 true dupState 7 0 3 1 cName [9]
    dupLayer dupLayer _ _ _ _ _ _ 1 (by rfl) (by rfl) (by rfl) (by rfl)

/-- Claim C6, counterexample: the six tokens of c6Name belong to none of
the vocabularies of tools/uploader.py, yet the chunk is accepted — the
part is stored, no InvalidFilenameFormat is raised; while a seven-token
name and a two-token category-only name, which the claim admits, are both
rejected with 400 before anything is stored. -/
theorem c6_vocabulary_counterexample :
    CROP_ITEMS.contains "xx".toList = false ∧
    GLOBAL_WATER_MODELS.contains "yy".toList = false ∧
    CLIMATE_MODELS.contains "zz".toList = false ∧
    SCENARIOS.contains "ww".toList = false ∧
    VARIABLES.contains "vv".toList = false ∧
    uploadChunk (initState 5) 7 0 5 c6Name 1 [9] = .ok c6State ∧
    uploadChunk (initState 5) 7 0 5 cName7 1 [9] =
      .error .invalidFilename ∧
    uploadChunk (initState 5) 7 0 5 cName2 1 [9] =
      .error .invalidFilename :=
  ⟨by decide, by decide, by decide, by decide, by decide,
   by rfl, by rfl, by rfl⟩

/-- Claim C6, amended: server-side metadata extraction succeeds exactly
when the lower-cased stem before the first dot splits on underscores into
six tokens; no vocabulary membership is checked there (the vocabularies
live only in the client tool), and every other arity — including the
seven-token and the two-token category-only forms — fails with status 400
before any storage call. -/
theorem c6_filename_arity_amended :
    (∀ name : Str, (parseFilename name).isSome ↔
      (stemTokens name).length = 6) ∧
    (∀ (st : ChunkState) (patch off tot len : Nat) (name : Str)
        (body : Bytes) (layer : LayerRec),
      st.layers.find? (fun l => l.id == patch) = some layer →
      (stemTokens name).length ≠ 6 →
      uploadChunk st patch off tot name len body =
        .error .invalidFilename) ∧
    statusCode .invalidFilename = 400 := by
  refine ⟨parseFilename_isSome_iff, ?_, rfl⟩
  intro st patch off tot len name body layer hfind hlen
  apply uploadChunk_invalidName st patch off tot len name body layer hfind
  rcases hp : parseFilename name with _ | tup
  · rfl
  · exact absurd ((parseFilename_isSome_iff name).mp (by rw [hp]; rfl)) hlen

/-- Witness for C6 amended: the seven-token name rejected on a fresh
session. -/
theorem c6_filename_arity_amended_witness :
    ((initState 5).layers.find? (fun l => l.id == 7) =
        some (freshLayer 7 5) ∧
     (stemTokens cName7).length ≠ 6) ∧
    uploadChunk (initState 5) 7 0 5 cName7 1 [9] =
      .error .invalidFilename := by
  refine ⟨⟨by rfl, by decide⟩, ?_⟩
  exact c6_filename_arity_amended.2.1 (initState 5) 7 0 5 1 cName7 [9]
    (freshLayer 7 5) (by rfl) (by decide)

/-- Claim C7, counterexample: a complete in-order scenario upload
finalizes successfully and registers the catalog entry with
all_parts_received set, yet min_value and max_value are never written
(they stay none, not finite values) — the finalize path runs no band
statistics scan, and no error status of the handler is 422, so a
ValueRangeInvalid failure cannot occur. -/
theorem c7_value_range_counterexample :
    runChunks (initState 3) 7 3 exName [(0, 1, [1]), (1, 1, [2]), (2, 1, [3])] =
      .ok c7Final ∧
    c7Final.layers.map (fun l => l.allPartsReceived) = [true] ∧
    c7Final.layers.map (fun l => l.minValue) = [none] ∧
    c7Final.layers.map (fun l => l.maxValue) = [none] ∧
    statusCode .notFound ≠ 422 ∧ statusCode .invalidFilename ≠ 422 ∧
    statusCode .duplicate ≠ 422 ∧ statusCode .serverError ≠ 422 :=
  ⟨by rfl, by rfl, by rfl, by rfl,
   by decide, by decide, by decide, by decide⟩

/-- Claim C7, amended: the chunk handler can never fail with status 422 —
no statistics stage is invoked during finalize — and a successful chunk,
terminal or not, leaves every layer row's min_value and max_value equal to
those of a pre-existing row, so registration writes no statistics at
all. -/
theorem c7_no_statistics_amended :
    (∀ (st : ChunkState) (patch off tot len : Nat) (name : Str)
        (body : Bytes) (e : UploadError),
      uploadChunk st patch off tot name len body = .error e →
      statusCode e ≠ 422) ∧
    (∀ (st : ChunkState) (patch off tot len : Nat) (name : Str)
        (body : Bytes) (st' : ChunkState),
      uploadChunk st patch off tot name len body = .ok st' →
      ∀ l' ∈ st'.layers, ∃ l ∈ st.layers,
        l'.minValue = l.minValue ∧ l'.maxValue = l.maxValue) := by
  refine ⟨?_, ?_⟩
  · intro st patch off tot len name body e he
    cases e <;> decide
  · intro st patch off tot len name body st' hok
    exact uploadChunk_preserves_stats st patch off tot len name body st' hok

/-- Witness for C7 amended: the accepted first chunk of a fresh 3-byte
session preserves the absent statistics. -/
theorem c7_no_statistics_amended_witness :
    (uploadChunk (initState 3) 7 0 3 cName 1 [10] = .ok c7Mid) ∧
    (∀ l' ∈ c7Mid.layers, ∃ l ∈ (initState 3).layers,
      l'.minValue = l.minValue ∧ l'.maxValue = l.maxValue) := by
  refine ⟨by rfl, ?_⟩
  exact c7_no_statistics_amended.2 (initState 3) 7 0 3 1 cName [10] c7Mid
    (by rfl)

/-- Claim C8, counterexample: dupState's only session is fully received
(terminal in the claim's sense), yet a chunk addressed to it is rejected
with 409 through the duplicate query, not with 404 — the session lookup
carries no state condition. -/
theorem c8_terminal_session_counterexample :
    dupState.layers.map (fun l => l.allPartsReceived) = [true] ∧
    uploadChunk dupState 7 1 3 cName 1 [9] = .error .duplicate ∧
    UploadError.duplicate ≠ UploadError.notFound ∧
    statusCode .duplicate = 409 :=
  ⟨by rfl, by rfl, by decide, by rfl⟩

/-- Claim C8, amended: the handler fails with 404 exactly when no layer
row carries the requested id — session state plays no role in the lookup;
a chunk addressed to a fully received session is not answered 404 (when
its filename matches that session's metadata it is answered 409, see the
counterexample). -/
theorem c8_not_found_amended (st : ChunkState) (patch off tot len : Nat)
    (name : Str) (body : Bytes) :
    uploadChunk st patch off tot name len body = .error .notFound ↔
      st.layers.find? (fun l => l.id == patch) = none := by
  cases hf : st.layers.find? (fun l => l.id == patch) with
  | none =>
    unfold uploadChunk
    simp [hf]
  | some layer =>
    exact iff_of_false
      (uploadChunk_ne_notFound st patch off tot len name body layer hf)
      (by simp [hf])

/-- Claim C9: a terminal chunk — offset plus content length equal to the
declared total — arriving while the session's part list is empty makes the
unguarded last-element access fail: the request errors with status 500,
no part is recorded and no completion is attempted, instead of the chunk
receiving part number 1. -/
theorem c9_single_chunk_terminal (st : ChunkState) (patch off tot len : Nat)
    (name : Str) (body : Bytes) (layer : LayerRec)
    (c w cl s v y : Str) (yr : Int)
    (hfind : st.layers.find? (fun l => l.id == patch) = some layer)
    (hparse : parseFilename name = some (c, w, cl, s, v, y))
    (hyr : parseInt? y = some yr)
    (hdup : findDuplicate st.layers c w cl s v yr = none)
    (hparts : layer.parts = [])
    (hf : off + len = tot) :
    uploadChunk st patch off tot name len body = .error .serverError ∧
    statusCode .serverError = 500 ∧
    ∀ st', uploadChunk st patch off tot name len body ≠ .ok st' := by
  have herr := uploadChunk_final_noParts st patch off tot len name body
    layer c w cl s v y yr hfind hparse hyr hdup hf hparts
  refine ⟨herr, rfl, ?_⟩
  intro st'
  rw [herr]
  simp

/-- Witness for C9: a single-chunk upload covering the whole 5-byte
declared length on a fresh session. -/
theorem c9_single_chunk_terminal_witness :
    ((initState 5).layers.find? (fun l => l.id == 7) =
        some (freshLayer 7 5) ∧
     parseFilename cName = some ("a".toList, "b".toList, "c".toList,
       "d".toList, "e".toList, "1".toList) ∧
     parseInt? "1".toList = some 1 ∧
     findDuplicate (initState 5).layers "a".toList "b".toList "c".toList
       "d".toList "e".toList 1 = none ∧
     (freshLayer 7 5).parts = [] ∧ (0 + 5 : Nat) = 5) ∧
    uploadChunk (initState 5) 7 0 5 cName 5 [1, 2, 3, 4, 5] =
      .error .serverError := by
  refine ⟨⟨by rfl, by rfl, by rfl, by rfl, by rfl, by decide⟩, ?_⟩
  exact (c9_single_chunk_terminal (initState 5) 7 0 5 5 cName [1, 2, 3, 4, 5]
    (freshLayer 7 5) _ _ _ _ _ _ 1 (by rfl) (by rfl) (by rfl) (by rfl)
    (by rfl) (by decide)).1

/-- Claim C10: whenever the filename of a chunk request parses to
metadata matching a fully received layer, the request fails with 409 —
whatever the offset and length, terminal or not — and never reaches the
storage upload, whose effects would only appear in an ok result. -/
theorem c10_duplicate_every_chunk (st : ChunkState)
    (patch off tot len : Nat) (name : Str) (body : Bytes)
    (layer d : LayerRec) (c w cl s v y : Str) (yr : Int)
    (hfind : st.layers.find? (fun l => l.id == patch) = some layer)
    (hparse : parseFilename name = some (c, w, cl, s, v, y))
    (hyr : parseInt? y = some yr)
    (hdup : findDuplicate st.layers c w cl s v yr = some d) :
    uploadChunk st patch off tot name len body = .error .duplicate ∧
    statusCode .duplicate = 409 ∧
    ∀ st', uploadChunk st patch off tot name len body ≠ .ok st' := by
  have herr := uploadChunk_duplicate st patch off tot len name body layer d
    c w cl s v y yr hfind hparse hyr hdup
  refine ⟨herr, rfl, ?_⟩
  intro st'
  rw [herr]
  simp

/-- Witness for C10: a terminal chunk addressed to dupState's session is
rejected 409. -/
theorem c10_duplicate_every_chunk_witness :
    (dupState.layers.find? (fun l => l.id == 7) = some dupLayer ∧
     parseFilename cName = some ("a".toList, "b".toList, "c".toList,
       "d".toList, "e".toList, "1".toList) ∧
     parseInt? "1".toList = some 1 ∧
     findDuplicate dupState.layers "a".toList "b".toList "c".toList
       "d".toList "e".toList 1 = some dupLayer) ∧
    uploadChunk dupState 7 2 3 cName 1 [9] = .error .duplicate := by
  refine ⟨⟨by rfl, by rfl, by rfl, by rfl⟩, ?_⟩
  exact (c10_duplicate_every_chunk dupState 7 2 3 1 cName [9] dupLayer
    dupLayer _ _ _ _ _ _ 1 (by rfl) (by rfl) (by rfl) (by rfl)).1

end Drop4Crop
